import Mathlib

/-
Verification of the credential resolution / validation pipeline of
aws-db-monitoring-automation, as a shallow embedding of:
  scripts/lib/validation.py      (ConfigValidator)
  scripts/transform-config.py    (ConfigTransformer)
  scripts/validate-credentials.py (CredentialValidator)
Python dictionaries become structures whose fields are Option-typed
(none models an absent key).  A present-but-empty nested dict, which is
falsy in Python exactly like an absent key, is likewise modelled by none
for the `connection`, `credentials`, `monitoring` and `tls` sections.
Numeric monitoring fields are modelled as Rat (Python int/float); the
"must be a number" branch of the validator therefore has no counterpart
here, and ports are modelled as Int.  External effects (AWS fetches,
environment lookups, database drivers) are supplied as explicit oracle
functions, and emitted diagnostics / fetch calls are returned as lists.
-/

namespace AwsMon

/- Python truthiness of an optional string value: present and non-empty. -/
def otruthy : Option String → Option String
  | some s => if s = "" then none else some s
  | none => none

def truthyS (o : Option String) : Bool := (otruthy o).isSome

/- `a or b or c` on three optional string values, as in Python: the first
truthy operand, or else the last operand verbatim. -/
def pyOr3 (a b c : Option String) : Option String :=
  match otruthy a with
  | some x => some x
  | none =>
    match otruthy b with
    | some y => some y
    | none => c

def isAsciiAlnum (c : Char) : Bool := c.isAlpha || c.isDigit

/- Split a character list on a separator character; mirrors
Python's str.split(sep) including empty pieces. -/
def splitChar (sep : Char) : List Char → List (List Char)
  | [] => [[]]
  | c :: cs =>
    let rest := splitChar sep cs
    if c = sep then [] :: rest
    else
      match rest with
      | [] => [[c]]
      | r :: rs => (c :: r) :: rs

/- re.match r'^[a-zA-Z0-9][a-zA-Z0-9_-]*$' (validation.py _validate_name). -/
def nameOk (s : String) : Bool :=
  match s.data with
  | [] => false
  | c :: cs => isAsciiAlnum c && cs.all (fun x => isAsciiAlnum x || x = '_' || x = '-')

/- One label of the hostname regex of validation.py _validate_host:
[a-zA-Z0-9]([a-zA-Z0-9-]{0,61}[a-zA-Z0-9])? -/
def hostLabelOk : List Char → Bool
  | [] => false
  | [c] => isAsciiAlnum c
  | c :: cs =>
    isAsciiAlnum c && (c :: cs).length ≤ 63 &&
      cs.dropLast.all (fun x => isAsciiAlnum x || x = '-') && isAsciiAlnum (cs.getLastD 'a')

def hostnameOk (s : String) : Bool := (splitChar '.' s.data).all hostLabelOk

def digitsToNat (l : List Char) : Nat :=
  l.foldl (fun n c => n * 10 + (c.toNat - 48)) 0

/- One dotted-quad part as accepted by Python ipaddress.IPv4Address:
1-3 decimal digits, value at most 255, no leading zeros. -/
def ipv4PartOk (p : List Char) : Bool :=
  !p.isEmpty && p.all Char.isDigit && p.length ≤ 3 &&
    digitsToNat p ≤ 255 && (p = ['0'] || p.headD '0' ≠ '0')

def isIPv4 (s : String) : Bool :=
  let parts := splitChar '.' s.data
  parts.length = 4 && parts.all ipv4PartOk

def isHexDigit (c : Char) : Bool :=
  c.isDigit || (97 ≤ c.toNat && c.toNat ≤ 102) || (65 ≤ c.toNat && c.toNat ≤ 70)

def hextetOk (p : List Char) : Bool :=
  !p.isEmpty && p.length ≤ 4 && p.all isHexDigit

/- Python ipaddress.IPv6Address textual parsing (zone indices are not
modelled; no claim exercises them).  Follows CPython's split-on-colon
accounting for a single elided '::' group and an optional trailing
embedded IPv4 address. -/
def isIPv6 (s : String) : Bool :=
  let parts0 := splitChar ':' s.data
  if parts0.length < 3 then false else
  let lastPart := parts0.getLastD []
  let hasDot := lastPart.contains '.'
  if hasDot && ¬ isIPv4 ⟨lastPart⟩ then false else
  let parts := if hasDot then parts0.dropLast ++ [['0'], ['0']] else parts0
  let n := parts.length
  if 9 < n then false else
  let innerEmpties := ((parts.drop 1).dropLast).enum.filterMap
      (fun p => if p.2.isEmpty then some (p.1 + 1) else none)
  match innerEmpties with
  | [] =>
      decide (n = 8) && !(parts.headD []).isEmpty && !(parts.getLastD []).isEmpty &&
        parts.all hextetOk
  | [skip] =>
      let headEmpty := (parts.headD []).isEmpty
      let lastEmpty := (parts.getLastD []).isEmpty
      let partsHi := if headEmpty then skip - 1 else skip
      let partsLo := if lastEmpty then n - skip - 2 else n - skip - 1
      if headEmpty && partsHi ≠ 0 then false else
      if lastEmpty && partsLo ≠ 0 then false else
      if 8 ≤ partsHi + partsLo then false else
      (parts.take partsHi).all hextetOk && (parts.drop (n - partsLo)).all hextetOk
  | _ => false

/- validation.py _validate_host: an IP address accepted by
ipaddress.ip_address, or a hostname matching the hostname regex. -/
def validateHost (host : String) : Bool :=
  isIPv4 host || isIPv6 host || hostnameOk host

/- re.match r'^\d+[smh]$' (ASCII digits; validation.py _validate_interval). -/
def intervalOk (s : String) : Bool :=
  match s.data.getLast? with
  | some u => (u = 's' || u = 'm' || u = 'h') &&
      !s.data.dropLast.isEmpty && s.data.dropLast.all Char.isDigit
  | none => false

/- re.match r'^[a-zA-Z0-9/_\-+=.@]+$' (validation.py _validate_aws_secret_name). -/
def secretNameOk (s : String) : Bool :=
  !s.data.isEmpty &&
    s.data.all (fun c => isAsciiAlnum c || c ∈ ['/', '_', '-', '+', '=', '.', '@'])

/- re.match r'^/[a-zA-Z0-9/_\-.]+$' (validation.py _validate_ssm_parameter_name). -/
def ssmNameOk (s : String) : Bool :=
  match s.data with
  | '/' :: rest =>
    !rest.isEmpty && rest.all (fun c => isAsciiAlnum c || c ∈ ['/', '_', '-', '.'])
  | _ => false

/- ---------- configuration data model ---------- -/

structure Connection where
  host : Option String := none
  endpoint : Option String := none
  cluster_endpoint : Option String := none
  port : Option Int := none
  ssl_mode : Option String := none
  database : Option String := none
deriving Repr, DecidableEq

structure Credentials where
  user_source : Option String := none
  user : Option String := none
  user_env : Option String := none
  user_key : Option String := none
  username : Option String := none
  password_source : Option String := none
  password : Option String := none
  password_key : Option String := none
  password_env : Option String := none
deriving Repr, DecidableEq

structure Monitoring where
  interval : Option String := none
  max_sql_query_length : Option Rat := none
  max_sample_rate : Option Rat := none
  query_timeout : Option Rat := none
  extended_metrics : Option Bool := none
  enable_query_monitoring : Option Bool := none
  query_metrics_interval : Option String := none
  gather_query_samples : Option Bool := none
  collect_bloat_metrics : Option Bool := none
  collect_db_lock_metrics : Option Bool := none
deriving Repr, DecidableEq

structure Tls where
  enabled : Option Bool := none
  ca_bundle_file : Option String := none
deriving Repr, DecidableEq

structure Db where
  name : Option String := none
  enabled : Option Bool := none
  type : Option String := none
  provider : Option String := none
  connection : Option Connection := none
  credentials : Option Credentials := none
  monitoring : Option Monitoring := none
  tls : Option Tls := none
  labels : List (String × String) := []
deriving Repr, DecidableEq

structure Config where
  mysql_databases : Option (List Db) := none
  postgresql_databases : Option (List Db) := none
deriving Repr, DecidableEq

/- ---------- validation.py : ConfigValidator ---------- -/

/- Every message produced inside _validate_database and its helpers begins
with the f-string prefix "{db_type}[{index}]"; the helpers below therefore
return the message suffixes and the prefix is prepended uniformly, which
yields exactly the strings of the source. -/

/- _validate_connection, message suffixes (errors, warnings). -/
def validateConnectionSuffixes (conn : Connection) : List String × List String :=
  let valid_hosts := [conn.host, conn.endpoint, conn.cluster_endpoint].filterMap otruthy
  let ew :=
    match valid_hosts with
    | [] => (([".connection: No host specified"] : List String), ([] : List String))
    | [h] =>
      ((if validateHost h then [] else
        [".connection: Invalid host \x27" ++ h ++ "\x27"]), ([] : List String))
    | _ => (([] : List String), [".connection: Multiple hosts specified, will use first one"])
  let portErrs :=
    match conn.port with
    | some p =>
      if p < 1 || p > 65535 then
        [".connection: Invalid port \x27" ++ toString p ++ "\x27 - must be 1-65535"]
      else []
    | none => []
  let sslErrs :=
    match conn.ssl_mode with
    | some m =>
      if m ≠ "" && m ∉ ["disable", "require", "verify-ca", "verify-full", "prefer"] then
        [".connection: Invalid ssl_mode \x27" ++ m ++ "\x27"]
      else []
    | none => []
  (ew.1 ++ portErrs ++ sslErrs, ew.2)

/- _validate_credentials, message suffixes (errors, warnings). -/
def validateCredentialsSuffixes (creds : Credentials) : List String × List String :=
  let user_source := creds.user_source.getD "plain"
  let e1 :=
    if user_source ∉ ["plain", "aws_secrets_manager", "aws_ssm_parameter", "env_var"] then
      [".credentials: Invalid user_source \x27" ++ user_source ++ "\x27"]
    else []
  let e2 :=
    if user_source = "plain" && !truthyS creds.user then
      [".credentials: Missing \x27user\x27 for plain text source"]
    else if user_source = "env_var" && !truthyS creds.user_env then
      [".credentials: Missing \x27user_env\x27 for environment variable source"]
    else if (user_source = "aws_secrets_manager" || user_source = "aws_ssm_parameter")
        && !truthyS creds.user_key then
      [".credentials: Missing \x27user_key\x27 for AWS source"]
    else []
  let password_source := creds.password_source.getD "plain"
  let e3 :=
    if password_source ∉ ["plain", "aws_secrets_manager", "aws_ssm_parameter", "env_var"] then
      [".credentials: Invalid password_source \x27" ++ password_source ++ "\x27"]
    else []
  let ew4 :=
    if password_source = "plain" then
      (([] : List String),
       if truthyS creds.password then
         [".credentials: Using plain text password is not recommended"]
       else [])
    else if password_source = "env_var" && !truthyS creds.password_env then
      ([".credentials: Missing \x27password_env\x27 for environment variable source"],
       ([] : List String))
    else if (password_source = "aws_secrets_manager" || password_source = "aws_ssm_parameter")
        && !truthyS creds.password_key then
      ([".credentials: Missing \x27password_key\x27 for AWS source"], ([] : List String))
    else (([] : List String), ([] : List String))
  let e5 :=
    if password_source = "aws_secrets_manager" then
      let key := creds.password_key.getD ""
      if key ≠ "" && !secretNameOk key then
        [".credentials: Invalid secret name \x27" ++ key ++ "\x27"]
      else []
    else if password_source = "aws_ssm_parameter" then
      let key := creds.password_key.getD ""
      if key ≠ "" && !ssmNameOk key then
        [".credentials: Invalid SSM parameter name \x27" ++ key ++ "\x27"]
      else []
    else []
  (e1 ++ e2 ++ e3 ++ ew4.1 ++ e5, ew4.2)

/- _validate_monitoring, message suffixes (errors only). -/
def validateMonitoringSuffixes (m : Monitoring) : List String :=
  let e1 :=
    match m.interval with
    | some iv =>
      if iv ≠ "" && !intervalOk iv then
        [".monitoring: Invalid interval \x27" ++ iv ++
          "\x27 - use format like \x2730s\x27, \x275m\x27, \x271h\x27"]
      else []
    | none => []
  let chk : Option Rat → Rat → Rat → String → List String := fun v lo hi msg =>
    match v with
    | some x => if x < lo || x > hi then [msg] else []
    | none => []
  e1 ++ chk m.max_sql_query_length 1 10000
        ".monitoring: max_sql_query_length must be between 1 and 10000"
     ++ chk m.max_sample_rate 0 1
        ".monitoring: max_sample_rate must be between 0.0 and 1.0"
     ++ chk m.query_timeout 1 3600
        ".monitoring: query_timeout must be between 1 and 3600"

/- _validate_database, message suffixes (errors, warnings), before the
"{db_type}[{index}]" prefix is attached. -/
def validateDatabaseSuffixes (db : Db) (db_type : String) : List String × List String :=
  let e1 :=
    match db.name with
    | none => [": Missing required field \x27name\x27"]
    | some n =>
      if !nameOk n then
        [": Invalid name \x27" ++ n ++ "\x27 - must contain only alphanumeric, dash, underscore"]
      else []
  let e2 :=
    match db.type with
    | none => [": Missing required field \x27type\x27"]
    | some t =>
      if t ≠ db_type then
        [": Type mismatch - expected \x27" ++ db_type ++ "\x27, got \x27" ++ t ++ "\x27"]
      else []
  let ew3 :=
    match db.connection with
    | none => (([": Missing \x27connection\x27 section"] : List String), ([] : List String))
    | some c => validateConnectionSuffixes c
  let ew4 :=
    match db.credentials with
    | none => (([": Missing \x27credentials\x27 section"] : List String), ([] : List String))
    | some c => validateCredentialsSuffixes c
  let e5 :=
    match db.monitoring with
    | none => []
    | some m => validateMonitoringSuffixes m
  (e1 ++ e2 ++ ew3.1 ++ ew4.1 ++ e5, ew3.2 ++ ew4.2)

def dbPrefix (db_type : String) (index : Nat) : String :=
  db_type ++ "[" ++ toString index ++ "]"

/- _validate_database: index-qualified errors and warnings of one entry. -/
def validateDatabase (db : Db) (db_type : String) (index : Nat) : List String × List String :=
  let sfx := validateDatabaseSuffixes db db_type
  (sfx.1.map (dbPrefix db_type index ++ ·), sfx.2.map (dbPrefix db_type index ++ ·))

/- names collected by _check_duplicate_names from both engine buckets. -/
def allNames (cfg : Config) : List String :=
  ((cfg.mysql_databases.getD []) ++ (cfg.postgresql_databases.getD [])).filterMap (·.name)

/- [name for name in all_names if all_names.count(name) > 1] -/
def dupNames (cfg : Config) : List String :=
  (allNames cfg).filter (fun n => 1 < (allNames cfg).count n)

/- list(set(duplicates)): CPython's set iteration order is unspecified, so
the model fixes one deduplication order (keeping the final occurrence of
each name); every name of the input appears in the result exactly once. -/
def uniqueOf : List String → List String
  | [] => []
  | x :: xs => if x ∈ xs then uniqueOf xs else x :: uniqueOf xs

def dupMessage (cfg : Config) : String :=
  "Duplicate service names found: " ++ String.intercalate ", " (uniqueOf (dupNames cfg))

/- _check_duplicate_names: the errors it appends. -/
def checkDuplicateNames (cfg : Config) : List String :=
  if (dupNames cfg).isEmpty then [] else [dupMessage cfg]

/- per-entry errors of validate_config, in emission order. -/
def dbErrorsOf (cfg : Config) : List String :=
  (((cfg.mysql_databases.getD []).enum.map
      (fun p => (validateDatabase p.2 "mysql" p.1).1)).flatten) ++
  (((cfg.postgresql_databases.getD []).enum.map
      (fun p => (validateDatabase p.2 "postgresql" p.1).1)).flatten)

def dbWarningsOf (cfg : Config) : List String :=
  (((cfg.mysql_databases.getD []).enum.map
      (fun p => (validateDatabase p.2 "mysql" p.1).2)).flatten) ++
  (((cfg.postgresql_databases.getD []).enum.map
      (fun p => (validateDatabase p.2 "postgresql" p.1).2)).flatten)

/- ConfigValidator.validate_config / validate_yaml_config:
(isValid, errors, warnings). -/
def validate_config (cfg : Config) : Bool × List String × List String :=
  let errors := dbErrorsOf cfg ++ checkDuplicateNames cfg
  (errors.isEmpty, errors, dbWarningsOf cfg)

/- ---------- transform-config.py : ConfigTransformer ---------- -/

/- The transformer's external collaborators: the Secrets Manager and SSM
clients (an Except.error models a raised exception, carrying the
exception text) and the process environment. -/
structure TEnv where
  secrets : String → Except String String
  params : String → Except String String
  vars : String → Option String

def ERROR_FETCHING_SECRET : String := "ERROR_FETCHING_SECRET"

def ERROR_FETCHING_PARAMETER : String := "ERROR_FETCHING_PARAMETER"

/- The fixed stderr line of ConfigTransformer.fetch_secret's handler. -/
def genericSecretDiag : String := "Error fetching secret: Failed to retrieve credentials"

/- The fixed stderr line of ConfigTransformer.fetch_ssm_parameter's handler. -/
def genericParamDiag : String := "Error fetching SSM parameter: Failed to retrieve credentials"

/- ConfigTransformer.fetch_secret: value (or sentinel) and the emitted
stderr diagnostics.  The embedding is a total function: the Python
handler catches every exception, so nothing propagates. -/
def fetch_secret (env : TEnv) (secret_id : String) : String × List String :=
  match env.secrets secret_id with
  | .ok v => (v, [])
  | .error _ => (ERROR_FETCHING_SECRET, [genericSecretDiag])

/- ConfigTransformer.fetch_ssm_parameter. -/
def fetch_ssm_parameter (env : TEnv) (parameter_name : String) : String × List String :=
  match env.params parameter_name with
  | .ok v => (v, [])
  | .error _ => (ERROR_FETCHING_PARAMETER, [genericParamDiag])

inductive FetchCall where
  | secret (key : String)
  | param (key : String)
deriving Repr, DecidableEq

structure PwOut where
  password : String
  diags : List String
  calls : List FetchCall
deriving Repr, DecidableEq

def pwSource (credentials : Credentials) : String :=
  credentials.password_source.getD "plain"

/- The password branch of ConfigTransformer.resolve_credentials; `calls`
records the AWS fetch calls performed. -/
def resolvePassword (env : TEnv) (credentials : Credentials) : PwOut :=
  if pwSource credentials = "aws_secrets_manager" then
    match otruthy credentials.password_key with
    | some k =>
      let fs := fetch_secret env k
      ⟨fs.1, fs.2, [.secret k]⟩
    | none => ⟨"MISSING_PASSWORD_KEY", [], []⟩
  else if pwSource credentials = "aws_ssm_parameter" then
    match otruthy credentials.password_key with
    | some k =>
      let fs := fetch_ssm_parameter env k
      ⟨fs.1, fs.2, [.param k]⟩
    | none => ⟨"MISSING_PASSWORD_KEY", [], []⟩
  else if pwSource credentials = "env_var" then
    match otruthy credentials.password_env with
    | some ev => ⟨(env.vars ev).getD "ENV_VAR_NOT_SET", [], []⟩
    | none => ⟨"MISSING_PASSWORD_ENV", [], []⟩
  else
    ⟨credentials.password.getD "MISSING_PASSWORD", [], []⟩

structure ResolveOut where
  user : String
  password : String
  diags : List String
  calls : List FetchCall
deriving Repr, DecidableEq

/- ConfigTransformer.resolve_credentials: the username is read verbatim
from the 'username' key (default 'newrelic'); the password goes through
the source-dispatched branch above. -/
def resolve_credentials (env : TEnv) (credentials : Credentials) : ResolveOut :=
  ⟨credentials.username.getD "newrelic",
   (resolvePassword env credentials).password,
   (resolvePassword env credentials).diags,
   (resolvePassword env credentials).calls⟩

/- The flat (Ansible-format) database entry produced by
ConfigTransformer.transform_database. -/
structure FlatDb where
  host : Option String
  port : Int
  user : String
  password : String
  service_name : Option String
  environment : String
  database : Option String := none
  sslmode : Option String := none
  extended_metrics : Bool
  interval : String
  enable_query_monitoring : Bool
  query_metrics_interval : String
  max_sql_query_length : Rat
  gather_query_samples : Bool
  collect_bloat_metrics : Option Bool := none
  collect_db_lock_metrics : Option Bool := none
  tls_enabled : Option Bool := none
  tls_ca : Option String := none
  custom_labels : List (String × String)
deriving Repr, DecidableEq

/- ConfigTransformer.transform_database.  `.ok none` models the early
`return None` for a disabled entry; `.error` models the KeyError raised
by the bare db['type'] access when 'type' is absent. -/
def transform_database (env : TEnv) (db : Db) : Except String (Option FlatDb) :=
  if !(db.enabled.getD true) then .ok none
  else
    let creds := resolve_credentials env (db.credentials.getD {})
    match db.type with
    | none => .error "KeyError: \x27type\x27"
    | some ty =>
      let conn := db.connection.getD {}
      let m := db.monitoring.getD {}
      let tls := db.tls.getD {}
      .ok (some
        { host := pyOr3 conn.host conn.endpoint conn.cluster_endpoint
          port := conn.port.getD (if ty = "mysql" then 3306 else 5432)
          user := creds.user
          password := creds.password
          service_name := db.name
          environment := (db.labels.lookup "environment").getD "production"
          database := if ty = "postgresql" then some (conn.database.getD "postgres") else none
          sslmode := if ty = "postgresql" then some (conn.ssl_mode.getD "require") else none
          extended_metrics := m.extended_metrics.getD true
          interval := m.interval.getD "30s"
          enable_query_monitoring := m.enable_query_monitoring.getD true
          query_metrics_interval := m.query_metrics_interval.getD "60s"
          max_sql_query_length := m.max_sql_query_length.getD 1000
          gather_query_samples := m.gather_query_samples.getD true
          collect_bloat_metrics :=
            if ty = "postgresql" then some (m.collect_bloat_metrics.getD true) else none
          collect_db_lock_metrics :=
            if ty = "postgresql" then some (m.collect_db_lock_metrics.getD true) else none
          tls_enabled := if tls.enabled.getD false then some true else none
          tls_ca := if tls.enabled.getD false then otruthy tls.ca_bundle_file else none
          custom_labels := db.labels.filter (fun p => p.1 ∉ ["environment"]) })

/- The per-bucket loop of ConfigTransformer.transform_config: transformed
entries are appended in order, None results are dropped. -/
def transformList (env : TEnv) : List Db → Except String (List FlatDb)
  | [] => .ok []
  | db :: rest => do
    let t ← transform_database env db
    let r ← transformList env rest
    match t with
    | some f => .ok (f :: r)
    | none => .ok r

/- The output document of ConfigTransformer.transform_config; a bucket key
absent from the output dict is modelled by none. -/
structure OutputConfig where
  newrelic_license_key : String
  newrelic_account_id : String
  mysql_databases : Option (List FlatDb) := none
  postgresql_databases : Option (List FlatDb) := none
deriving Repr, DecidableEq

/- ConfigTransformer.transform_config. -/
def transform_config (env : TEnv) (cfg : Config) : Except String OutputConfig := do
  let m ← transformList env (cfg.mysql_databases.getD [])
  let p ← transformList env (cfg.postgresql_databases.getD [])
  .ok
    { newrelic_license_key := (env.vars "NEWRELIC_LICENSE_KEY").getD "YOUR_LICENSE_KEY"
      newrelic_account_id := (env.vars "NEWRELIC_ACCOUNT_ID").getD "YOUR_ACCOUNT_ID"
      mysql_databases := if m.isEmpty then none else some m
      postgresql_databases := if p.isEmpty then none else some p }

inductive PipeEvent where
  | transformRun
  | wroteTempFile
  | chmodTempFile
  | renamedToFinal
deriving Repr, DecidableEq

structure ProcessResult where
  result : Except String OutputConfig
  events : List PipeEvent
  reportedErrors : List String
deriving Repr

/- ConfigTransformer.process_file, after the input document has been
read: validate, and on failure print the validation errors and raise
ValueError('Invalid configuration') before any transformation or file
write; on success transform, write the temp file, chmod it to owner
read/write and rename it over the output path. -/
def process_file (env : TEnv) (cfg : Config) : ProcessResult :=
  let v := validate_config cfg
  if !v.1 then ⟨.error "Invalid configuration", [], v.2.1⟩
  else
    match transform_config env cfg with
    | .error e => ⟨.error e, [.transformRun], []⟩
    | .ok out => ⟨.ok out, [.transformRun, .wroteTempFile, .chmodTempFile, .renamedToFinal], []⟩

/- ---------- validate-credentials.py : CredentialValidator ---------- -/

inductive ExcKind where
  | operational
  | programming
  | general
deriving Repr, DecidableEq

/- A database-driver exception: its class (which handler catches it) and
its message text. -/
structure DriverExc where
  kind : ExcKind
  text : String
deriving Repr, DecidableEq

/- Observed behaviour of a successful MySQL connection: the version row,
the rows of SHOW GRANTS FOR CURRENT_USER(), and the exception raised by
the performance_schema read, if any. -/
structure MySqlOk where
  version : String
  grants : List String
  psExc : Option DriverExc := none
deriving Repr, DecidableEq

inductive MySqlOutcome where
  | exc (e : DriverExc)
  | conn (o : MySqlOk)
deriving Repr, DecidableEq

/- The fixed messages of test_mysql_connection's three handlers
(pymysql.err.OperationalError / pymysql.err.ProgrammingError / Exception);
none of them uses the caught exception value. -/
def mysqlExcMsg : ExcKind → String
  | .operational => "Connection failed: Unable to connect to MySQL database"
  | .programming => "Permission error: Insufficient database privileges"
  | .general => "Connection failed: Database connection error"

def requiredMysqlPerms : List String := ["SELECT", "PROCESS", "REPLICATION CLIENT"]

def upperStr (s : String) : String := ⟨s.data.map Char.toUpper⟩

/- Bool-valued contiguous-sublist test, used for Python's `in` on strings. -/
def infixOf (needle hay : List Char) : Bool :=
  decide (needle <:+: hay)

/- grants_str = ' '.join(grants).upper(); the permissions among
['SELECT', 'PROCESS', 'REPLICATION CLIENT'] absent from it. -/
def missingPerms (grants : List String) : List String :=
  let grantsStr := upperStr (String.intercalate " " grants)
  requiredMysqlPerms.filter (fun p => !infixOf p.data grantsStr.data)

/- CredentialValidator.test_mysql_connection given the connection
outcome. -/
def test_mysql_connection (outcome : MySqlOutcome) : Bool × String :=
  match outcome with
  | .exc e => (false, mysqlExcMsg e.kind)
  | .conn o =>
    let missing := missingPerms o.grants
    if !missing.isEmpty then
      (false, "Missing permissions: " ++ String.intercalate ", " missing)
    else
      match o.psExc with
      | some e => (false, mysqlExcMsg e.kind)
      | none => (true, "Connected successfully (MySQL " ++ o.version ++ ")")

/- Observed behaviour of a successful PostgreSQL connection. -/
structure PgOk where
  version : String
  hasMonitorRole : Bool
  hasBasicPerms : Bool
  hasPgStatStatements : Bool
deriving Repr, DecidableEq

inductive PgOutcome where
  | exc (e : DriverExc)
  | conn (o : PgOk)
deriving Repr, DecidableEq

def pgExcMsg : ExcKind → String
  | .operational => "Connection failed: Unable to connect to PostgreSQL database"
  | .programming => "Permission error: Insufficient database privileges"
  | .general => "Connection failed: Database connection error"

/- CredentialValidator.test_postgresql_connection: (ok, message) plus the
warnings it appends to self.warnings. -/
def test_postgresql_connection (nameForWarn : String) (outcome : PgOutcome) :
    (Bool × String) × List String :=
  match outcome with
  | .exc e => ((false, pgExcMsg e.kind), [])
  | .conn o =>
    if !o.hasMonitorRole && !o.hasBasicPerms then
      ((false, "Missing pg_monitor role or equivalent permissions"), [])
    else
      ((true, "Connected successfully (PostgreSQL)"),
       if !o.hasPgStatStatements then
         [nameForWarn ++ ": pg_stat_statements extension not installed (query monitoring limited)"]
       else [])

/- The driver oracles of CredentialValidator: what a connection attempt
against a given flat entry observes. -/
structure ProbeEnv where
  mysql : FlatDb → MySqlOutcome
  pg : FlatDb → PgOutcome

/- db.get('service_name', db['host']): the display name of a flat entry
(transform output always carries the service_name key). -/
def nameOf (db : FlatDb) : String :=
  db.service_name.getD (db.host.getD "None")

/- 'ERROR' in db.get('password', ''): Python substring containment. -/
def hasErrTok (s : String) : Bool :=
  infixOf "ERROR".data s.data

/- One iteration of the MySQL loop of validate_credentials:
(appended errors, connection attempts made, per-entry validity). -/
def vcMysqlStep (env : ProbeEnv) (db : FlatDb) : List String × List FlatDb × Bool :=
  if hasErrTok db.password then
    ([nameOf db ++ ": Credential resolution failed"], [], false)
  else
    let r := test_mysql_connection (env.mysql db)
    (if r.1 then [] else [nameOf db ++ ": " ++ r.2], [db], r.1)

/- One iteration of the PostgreSQL loop:
(appended errors, appended warnings, connection attempts, validity). -/
def vcPgStep (env : ProbeEnv) (db : FlatDb) :
    List String × List String × List FlatDb × Bool :=
  if hasErrTok db.password then
    ([nameOf db ++ ": Credential resolution failed"], [], [], false)
  else
    let r := test_postgresql_connection (nameOf db) (env.pg db)
    (if r.1.1 then [] else [nameOf db ++ ": " ++ r.1.2], r.2, [db], r.1.1)

structure VCResult where
  allValid : Bool
  errors : List String
  warnings : List String
  attempts : List FlatDb
deriving Repr, DecidableEq

/- CredentialValidator.validate_credentials over an already-loaded flat
config: the New Relic license-key check, then the per-entry loops.
`attempts` records every entry for which a live connection was tried. -/
def validate_credentials (env : ProbeEnv) (cfg : OutputConfig) : VCResult :=
  let licErrs :=
    if cfg.newrelic_license_key = "" || cfg.newrelic_license_key = "YOUR_LICENSE_KEY" then
      ["New Relic license key not configured"]
    else []
  let msteps := (cfg.mysql_databases.getD []).map (vcMysqlStep env)
  let psteps := (cfg.postgresql_databases.getD []).map (vcPgStep env)
  { allValid := licErrs.isEmpty && msteps.all (·.2.2) && psteps.all (·.2.2.2)
    errors := licErrs ++ (msteps.map (·.1)).flatten ++ (psteps.map (·.1)).flatten
    warnings := (psteps.map (·.2.1)).flatten
    attempts := (msteps.map (·.2.1)).flatten ++ (psteps.map (·.2.2.1)).flatten }

/- ---------- concrete instances used by the theorems below ---------- -/

/- A transformer environment whose AWS clients always raise and whose
process environment is empty. -/
def tenv0 : TEnv :=
  { secrets := fun _ => .error "boom", params := fun _ => .error "boom", vars := fun _ => none }

/- The spec scenario input of claim C4. -/
def cfg4 : Config :=
  { mysql_databases := some [
      { name := some "db1", type := some "mysql",
        connection := some { host := some "h", port := some 3306 },
        credentials := some { user := some "u", password := some "p" } }] }

def mkDb1 (nm : String) : Db :=
  { name := some nm, type := some "mysql",
    connection := some { host := some "h1", port := some 3306 },
    credentials := some { user := some "u", password := some "p" } }

/- Two well-formed mysql entries both named db1 (claim C5 scenario). -/
def cfg5 : Config := { mysql_databases := some [mkDb1 "db1", mkDb1 "db1"] }

/- The enhanced entry of claim C7. -/
def db7 : Db :=
  { name := some "rds1", type := some "mysql", provider := some "rds",
    connection := some { endpoint := some "a.b.com", port := some 3306 },
    credentials := some { password_source := some "plain", password := some "secret1" } }

def dbDis : Db := { name := some "off", enabled := some false }

def dbPg : Db :=
  { name := some "pg1", type := some "postgresql",
    connection := some { host := some "p.h", port := some 5432 },
    credentials := some { password_source := some "plain", password := some "p" } }

/- A config whose only mysql entry is disabled and whose pg entry survives. -/
def cfg6 : Config := { mysql_databases := some [dbDis], postgresql_databases := some [dbPg] }

def out6 : OutputConfig :=
  match transform_config tenv0 cfg6 with
  | .ok o => o
  | .error _ => { newrelic_license_key := "", newrelic_account_id := "" }

/- Credentials addressing Secrets Manager with a non-empty key. -/
def credsSM : Credentials :=
  { password_source := some "aws_secrets_manager", password_key := some "k1" }

/- Credentials whose source is an invalid name and whose plain password
field is present. -/
def credsBogus : Credentials :=
  { password_source := some "bogus_source", password := some "pw1" }

/- Plain credentials carrying an explicit user_source/user pair. -/
def credsPlainUser : Credentials :=
  { user_source := some "plain", user := some "alice",
    password_source := some "plain", password := some "p" }

/- A mysql oracle granting every required permission. -/
def goodGrantsOutcome : MySqlOutcome :=
  .conn { version := "8.0", grants := ["GRANT SELECT, PROCESS, REPLICATION CLIENT ON *.* TO u"] }

def penv0 : ProbeEnv :=
  { mysql := fun _ => goodGrantsOutcome, pg := fun _ => .exc ⟨.general, ""⟩ }

/- A flat entry whose password is the MISSING_PASSWORD sentinel. -/
def flatM : FlatDb :=
  { host := some "h", port := 3306, user := "u", password := "MISSING_PASSWORD",
    service_name := some "db1", environment := "production",
    extended_metrics := true, interval := "30s", enable_query_monitoring := true,
    query_metrics_interval := "60s", max_sql_query_length := 1000,
    gather_query_samples := true, custom_labels := [] }

def ocfg0 : OutputConfig :=
  { newrelic_license_key := "lk123", newrelic_account_id := "1",
    mysql_databases := some [flatM] }

/- A structurally invalid enhanced config: the single entry has no name,
type, connection or credentials. -/
def badCfg : Config := { mysql_databases := some [{}] }

/- A flat entry carrying the ERROR_FETCHING_SECRET sentinel. -/
def flatE : FlatDb := { flatM with password := "ERROR_FETCHING_SECRET" }

def ocfgE : OutputConfig := { ocfg0 with mysql_databases := some [flatE] }

/- The duplicate-name error predicate: a message of the single shape
emitted by _check_duplicate_names. -/
def isDupMsg (s : String) : Bool :=
  decide ("Duplicate service names found: ".data <+: s.data)

/- ---------- theorems ---------- -/

/-- Claim C4 counterexample: on the scenario input the validator's warning
list is not empty — the plain-text password draws a warning — so
`validate` does not return `(true, [], [])` as claimed. -/
theorem c4_counterexample : (validate_config cfg4).2.2 ≠ ([] : List String) := by
  decide

/-- Claim C4 (amended): on the scenario input
`{"mysql_databases":[{"name":"db1","type":"mysql","connection":{"host":"h","port":3306},"credentials":{"user":"u","password":"p"}}]}`,
`validate` returns isValid = true, an empty error list, and exactly one
warning, `mysql[0].credentials: Using plain text password is not
recommended`. -/
theorem c4_amended_valid_with_plaintext_warning :
    validate_config cfg4 =
      (true, [], ["mysql[0].credentials: Using plain text password is not recommended"]) := by
  decide

/-- Claim C7: the enhanced entry with provider=rds,
connection.endpoint=a.b.com, connection.port=3306,
credentials.password_source=plain, credentials.password=secret1 and no
connection.host transforms to a flat entry with host=a.b.com, port=3306
and password=secret1. -/
theorem c7_rds_endpoint_roundtrip :
    ∃ f : FlatDb, transform_database tenv0 db7 = .ok (some f) ∧
      f.host = some "a.b.com" ∧ f.port = 3306 ∧ f.password = "secret1" :=
  ⟨_, rfl, rfl, rfl, rfl⟩

/-- Claim C3 counterexample: an entry whose credentials carry
user_source=plain with companion field user=alice is resolved to the
user 'newrelic', not to 'alice' — the transformer does not feed the
user-source form through the resolver. -/
theorem c3_counterexample :
    credsPlainUser.user_source = some "plain" ∧ credsPlainUser.user = some "alice" ∧
      (resolve_credentials tenv0 credsPlainUser).user = "newrelic" ∧
      ("newrelic" : String) ≠ "alice" := by
  refine ⟨rfl, rfl, rfl, ?_⟩
  decide

/-- Claim C3 (amended): the transformer's credential resolution sets the
flat entry's user to the credentials' 'username' field verbatim, with
default 'newrelic' when it is absent; the user_source / user / user_env /
user_key fields play no role in username resolution. -/
theorem c3_amended_username_verbatim (env : TEnv) (creds : Credentials) :
    (resolve_credentials env creds).user = creds.username.getD "newrelic" ∧
      (∀ us u ue uk,
        (resolve_credentials env
            { creds with user_source := us, user := u, user_env := ue, user_key := uk }).user =
          (resolve_credentials env creds).user) :=
  ⟨rfl, fun _ _ _ _ => rfl⟩

/-- Claim C10: when the password_source field is absent or holds any
string other than aws_secrets_manager / aws_ssm_parameter / env_var
(including invalid source names), resolution falls through to the
plain-text branch: it returns the literal password field when present and
the sentinel MISSING_PASSWORD when absent, and performs no fetch call and
emits no diagnostic. -/
theorem c10_plain_fallthrough (env : TEnv) (creds : Credentials)
    (h1 : pwSource creds ≠ "aws_secrets_manager")
    (h2 : pwSource creds ≠ "aws_ssm_parameter")
    (h3 : pwSource creds ≠ "env_var") :
    (resolve_credentials env creds).password = creds.password.getD "MISSING_PASSWORD" ∧
      (resolve_credentials env creds).calls = [] ∧
      (resolve_credentials env creds).diags = [] := by
  simp [resolve_credentials, resolvePassword, h1, h2, h3]

/-- Claim C10 witness: a concrete invalid source name with a present
password field resolves to that literal password with no fetch calls. -/
theorem c10_plain_fallthrough_witness :
    (resolve_credentials tenv0 credsBogus).password = "pw1" ∧
      (resolve_credentials tenv0 credsBogus).calls = [] :=
  ⟨((c10_plain_fallthrough tenv0 credsBogus (by decide) (by decide) (by decide)).1).trans
      (by decide),
   (c10_plain_fallthrough tenv0 credsBogus (by decide) (by decide) (by decide)).2.1⟩

/-- Claim C1: with password_source=aws_secrets_manager and a non-empty
password_key, when the secret fetch raises (any exception), resolution
returns exactly ERROR_FETCHING_SECRET without propagating (the embedded
resolver is a total function and the handler substitutes the sentinel),
and the only emitted diagnostic is the fixed generic line, which does not
contain the secret key or the exception text (stated for any key and
exception text that are not themselves fragments of that fixed generic
sentence). -/
theorem c1_secret_fetch_failure (env : TEnv) (creds : Credentials) (k e : String)
    (hsrc : creds.password_source = some "aws_secrets_manager")
    (hkey : creds.password_key = some k) (hk : k ≠ "")
    (hfail : env.secrets k = .error e) :
    (resolve_credentials env creds).password = "ERROR_FETCHING_SECRET" ∧
      (resolve_credentials env creds).diags = [genericSecretDiag] ∧
      (∀ d ∈ (resolve_credentials env creds).diags,
        (¬ k.data <:+: genericSecretDiag.data → ¬ k.data <:+: d.data) ∧
        (¬ e.data <:+: genericSecretDiag.data → ¬ e.data <:+: d.data)) := by
  have hres : resolvePassword env creds =
      ⟨ERROR_FETCHING_SECRET, [genericSecretDiag], [.secret k]⟩ := by
    simp [resolvePassword, pwSource, hsrc, hkey, otruthy, hk, fetch_secret, hfail]
  refine ⟨?_, ?_, ?_⟩
  · simp [resolve_credentials, hres, ERROR_FETCHING_SECRET]
  · simp [resolve_credentials, hres]
  · intro d hd
    have : d = genericSecretDiag := by
      simp [resolve_credentials, hres] at hd
      exact hd
    subst this
    exact ⟨fun h hcon => h hcon, fun h hcon => h hcon⟩

/-- Claim C1 witness: concrete failing fetch on key k1. -/
theorem c1_secret_fetch_failure_witness :
    (resolve_credentials tenv0 credsSM).password = "ERROR_FETCHING_SECRET" ∧
      (resolve_credentials tenv0 credsSM).diags =
        ["Error fetching secret: Failed to retrieve credentials"] :=
  ⟨(c1_secret_fetch_failure tenv0 credsSM "k1" "boom" rfl rfl (by decide) rfl).1,
   ((c1_secret_fetch_failure tenv0 credsSM "k1" "boom" rfl rfl (by decide) rfl).2.1).trans
     (by rfl)⟩

/-- Claim C9: for a MySQL probe whose connection and grants query succeed,
whenever one of SELECT / PROCESS / REPLICATION CLIENT does not occur
case-insensitively as a substring of the space-joined grant text the
probe returns ok=false with 'Missing permissions: ' followed by exactly
the missing permission names in order; and on any driver exception the
probe returns ok=false with one of the three fixed generic handler
messages, the same message for every exception text. -/
theorem c9_mysql_probe_permissions_and_exceptions
    (version : String) (grants : List String) (psExc : Option DriverExc)
    (hmiss : requiredMysqlPerms.filter
      (fun p => !infixOf p.data (upperStr (String.intercalate " " grants)).data) ≠ []) :
    test_mysql_connection (.conn ⟨version, grants, psExc⟩) =
      (false, "Missing permissions: " ++ String.intercalate ", "
        (requiredMysqlPerms.filter
          (fun p => !infixOf p.data (upperStr (String.intercalate " " grants)).data))) ∧
    (∀ ex : DriverExc,
      (test_mysql_connection (.exc ex)).1 = false ∧
      (test_mysql_connection (.exc ex)).2 ∈
        ["Connection failed: Unable to connect to MySQL database",
         "Permission error: Insufficient database privileges",
         "Connection failed: Database connection error"] ∧
      (∀ t, test_mysql_connection (.exc ⟨ex.kind, t⟩) = test_mysql_connection (.exc ex))) := by
  constructor
  · obtain ⟨a, l, hal⟩ := List.exists_cons_of_ne_nil hmiss
    simp [test_mysql_connection, missingPerms, hal]
  · intro ex
    refine ⟨rfl, ?_, fun t => rfl⟩
    obtain ⟨k, t⟩ := ex
    cases k <;> simp [test_mysql_connection, mysqlExcMsg]

/-- Claim C9 witness: with only SELECT granted the probe reports the two
missing permissions, and an operational exception with secret-bearing
text yields ok=false with the fixed generic message. -/
theorem c9_mysql_probe_witness :
    test_mysql_connection (.conn ⟨"8.0", ["GRANT SELECT ON *.* TO u"], none⟩) =
      (false, "Missing permissions: PROCESS, REPLICATION CLIENT") ∧
    (test_mysql_connection (.exc ⟨.operational, "password was hunter2"⟩)).1 = false :=
  ⟨((c9_mysql_probe_permissions_and_exceptions "8.0" ["GRANT SELECT ON *.* TO u"] none
      (by decide)).1).trans (by decide),
   ((c9_mysql_probe_permissions_and_exceptions "8.0" ["GRANT SELECT ON *.* TO u"] none
      (by decide)).2 ⟨.operational, "password was hunter2"⟩).1⟩

/-- Claim C8: when validation judges the input config invalid,
process_file reports exactly the validation errors, yields the
ValueError('Invalid configuration'), and performs no pipeline event —
in particular the transformation never runs and the output file is not
written or renamed over. -/
theorem c8_invalid_config_blocks_pipeline (env : TEnv) (cfg : Config)
    (hinv : (validate_config cfg).1 = false) :
    (process_file env cfg).result = .error "Invalid configuration" ∧
      (process_file env cfg).events = [] ∧
      (process_file env cfg).reportedErrors = (validate_config cfg).2.1 := by
  refine ⟨?_, ?_, ?_⟩ <;> simp [process_file, hinv]

/-- Claim C8 witness: a concrete structurally invalid config is blocked
before transformation with no write events. -/
theorem c8_invalid_config_blocks_pipeline_witness :
    (process_file tenv0 badCfg).result = .error "Invalid configuration" ∧
      (process_file tenv0 badCfg).events = [] :=
  ⟨(c8_invalid_config_blocks_pipeline tenv0 badCfg (by decide)).1,
   (c8_invalid_config_blocks_pipeline tenv0 badCfg (by decide)).2.1⟩

/-- Skipping a disabled entry leaves the transformed list unchanged: the
per-bucket loop over a list with the disabled entries filtered out
produces the same result as over the original list. -/
theorem transformList_filter_enabled (env : TEnv) (dbs : List Db) :
    transformList env (dbs.filter (fun d => d.enabled.getD true)) = transformList env dbs := by
  induction dbs with
  | nil => rfl
  | cons d rest ih =>
    by_cases hd : d.enabled.getD true = true
    · rw [List.filter_cons_of_pos (by simpa using hd)]
      simp only [transformList, ih]
    · have hnone : transform_database env d = .ok none := by
        simp [transform_database, hd]
      have hskip : transformList env (d :: rest) = transformList env rest := by
        simp only [transformList, hnone]
        cases h : transformList env rest <;> simp [h, Bind.bind, Except.bind]
      rw [List.filter_cons_of_neg (by simpa using hd), ih, hskip]

/-- Claim C6: disabled entries are entirely absent from the transform
output (transform_database yields None for them and the per-bucket loops
are invariant under removing them), and a bucket key is absent from the
output exactly when its surviving transformed list is empty. -/
theorem c6_disabled_dropped_and_empty_buckets_omitted (env : TEnv) (cfg : Config)
    (out : OutputConfig) (db : Db)
    (hok : transform_config env cfg = .ok out) (hdis : db.enabled = some false) :
    transform_database env db = .ok none ∧
    transformList env ((cfg.mysql_databases.getD []).filter (fun d => d.enabled.getD true)) =
      transformList env (cfg.mysql_databases.getD []) ∧
    transformList env ((cfg.postgresql_databases.getD []).filter (fun d => d.enabled.getD true)) =
      transformList env (cfg.postgresql_databases.getD []) ∧
    (out.mysql_databases = none ↔
      transformList env (cfg.mysql_databases.getD []) = .ok []) ∧
    (out.postgresql_databases = none ↔
      transformList env (cfg.postgresql_databases.getD []) = .ok []) := by
  have hsplit : ∃ m p, transformList env (cfg.mysql_databases.getD []) = .ok m ∧
      transformList env (cfg.postgresql_databases.getD []) = .ok p ∧
      out.mysql_databases = (if m.isEmpty then none else some m) ∧
      out.postgresql_databases = (if p.isEmpty then none else some p) := by
    cases hm : transformList env (cfg.mysql_databases.getD []) with
    | error e => simp [transform_config, hm, Bind.bind, Except.bind] at hok
    | ok m =>
      cases hp : transformList env (cfg.postgresql_databases.getD []) with
      | error e => simp [transform_config, hm, hp, Bind.bind, Except.bind] at hok
      | ok p =>
        refine ⟨m, p, rfl, rfl, ?_, ?_⟩ <;>
          · simp [transform_config, hm, hp, Bind.bind, Except.bind] at hok
            rw [← hok]
            simp [List.isEmpty_iff]
  obtain ⟨m, p, hm, hp, ho1, ho2⟩ := hsplit
  refine ⟨by simp [transform_database, hdis],
    transformList_filter_enabled env _, transformList_filter_enabled env _, ?_, ?_⟩
  · rw [ho1, hm]
    cases m <;> simp
  · rw [ho2, hp]
    cases p <;> simp

/-- Claim C6 witness: in a config whose only mysql entry is disabled, the
entry transforms to None and the mysql_databases key is absent from the
output. -/
theorem c6_disabled_dropped_witness :
    transform_database tenv0 dbDis = .ok none ∧
      (out6.mysql_databases = none ↔
        transformList tenv0 (cfg6.mysql_databases.getD []) = .ok []) :=
  ⟨(c6_disabled_dropped_and_empty_buckets_omitted tenv0 cfg6 out6 dbDis (by rfl) rfl).1,
   (c6_disabled_dropped_and_empty_buckets_omitted tenv0 cfg6 out6 dbDis (by rfl) rfl).2.2.2.1⟩

/-- A list with a distinct head is never a prefix of one with a different
head. -/
theorem not_prefix_of_head_ne {c₁ c₂ : Char} {l₁ l₂ : List Char} (h : c₁ ≠ c₂) :
    ¬ ((c₁ :: l₁) <+: (c₂ :: l₂)) := by
  rintro ⟨t, ht⟩
  rw [List.cons_append] at ht
  exact h (List.cons.inj ht).1

/-- A string whose first character is not 'D' never carries the
duplicate-name message prefix. -/
theorem isDupMsg_of_head_ne (pre : String) (c : Char) (rest : List Char) (s : String)
    (hpre : pre.data = c :: rest) (hc : c ≠ 'D') :
    isDupMsg (pre ++ s) = false := by
  unfold isDupMsg
  apply decide_eq_false
  intro hpfx
  rw [String.data_append, hpre, List.cons_append] at hpfx
  have hD : "Duplicate service names found: ".data =
      'D' :: "uplicate service names found: ".data := rfl
  rw [hD] at hpfx
  exact not_prefix_of_head_ne (fun h => hc h.symm) hpfx

/-- The data of a mysql entry prefix starts with 'm'. -/
theorem dbPrefix_mysql_data (i : Nat) :
    (dbPrefix "mysql" i).data = 'm' :: ("ysql" ++ "[" ++ toString i ++ "]").data := by
  simp [dbPrefix, String.data_append,
    show "mysql".data = 'm' :: "ysql".data from rfl]

/-- The data of a postgresql entry prefix starts with 'p'. -/
theorem dbPrefix_pg_data (i : Nat) :
    (dbPrefix "postgresql" i).data =
      'p' :: ("ostgresql" ++ "[" ++ toString i ++ "]").data := by
  simp [dbPrefix, String.data_append,
    show "postgresql".data = 'p' :: "ostgresql".data from rfl]

/-- No per-entry validation error is a duplicate-name message: every one
of them begins with its mysql[i] / postgresql[i] prefix. -/
theorem dbErrorsOf_not_dup (cfg : Config) :
    ∀ err ∈ dbErrorsOf cfg, isDupMsg err = false := by
  intro err herr
  unfold dbErrorsOf at herr
  rcases List.mem_append.1 herr with h | h <;>
    [skip; skip] <;>
  · rcases List.mem_flatten.1 h with ⟨l, hl, hel⟩
    rcases List.mem_map.1 hl with ⟨q, hq, rfl⟩
    rcases List.mem_map.1 (by simpa [validateDatabase] using hel) with ⟨sfx, hs, rfl⟩
    first
      | exact isDupMsg_of_head_ne _ 'm' _ sfx (dbPrefix_mysql_data q.1) (by decide)
      | exact isDupMsg_of_head_ne _ 'p' _ sfx (dbPrefix_pg_data q.1) (by decide)

/-- uniqueOf keeps exactly one copy of every element of its input. -/
theorem uniqueOf_count (l : List String) (a : String) :
    (uniqueOf l).count a = if a ∈ l then 1 else 0 := by
  induction l with
  | nil => simp [uniqueOf]
  | cons x xs ih =>
    by_cases hx : x ∈ xs
    · rw [show uniqueOf (x :: xs) = uniqueOf xs from by simp [uniqueOf, hx], ih]
      have hiff : (a ∈ x :: xs) ↔ (a ∈ xs) := by
        constructor
        · intro h
          rcases List.mem_cons.1 h with rfl | h
          · exact hx
          · exact h
        · exact fun h => List.mem_cons_of_mem _ h
      rw [if_congr hiff.symm rfl rfl]
    · rw [show uniqueOf (x :: xs) = x :: uniqueOf xs from by simp [uniqueOf, hx],
        List.count_cons, ih]
      by_cases hax : a = x
      · subst hax
        simp [hx]
      · simp [List.mem_cons, hax, Ne.symm hax]

/-- Membership in the duplicates list is exactly multiplicity above one in
the combined name list. -/
theorem mem_dupNames (cfg : Config) (n : String) :
    n ∈ dupNames cfg ↔ 1 < (allNames cfg).count n := by
  unfold dupNames
  rw [List.mem_filter]
  constructor
  · rintro ⟨-, h⟩
    exact of_decide_eq_true h
  · intro h
    exact ⟨List.count_pos_iff.1 (by omega), decide_eq_true h⟩

/-- Claim C5: whenever some name occurs in more than one entry across the
combined buckets, validate's error list is the per-entry errors followed
by exactly one duplicate-name message; that message lists each distinct
duplicated name exactly once (and no non-duplicated name); exactly one
message of the duplicate-name shape occurs among all errors; and for the
concrete scenario of two mysql entries named db1 the whole error list is
exactly ['Duplicate service names found: db1']. -/
theorem c5_one_duplicate_error (cfg : Config)
    (hdup : ∃ n, 1 < (allNames cfg).count n) :
    (validate_config cfg).2.1 = dbErrorsOf cfg ++ [dupMessage cfg] ∧
    dupMessage cfg = "Duplicate service names found: " ++
        String.intercalate ", " (uniqueOf (dupNames cfg)) ∧
    (∀ n : String, (uniqueOf (dupNames cfg)).count n =
        if 1 < (allNames cfg).count n then 1 else 0) ∧
    (validate_config cfg).2.1.countP isDupMsg = 1 ∧
    (validate_config cfg5).2.1 = ["Duplicate service names found: db1"] := by
  obtain ⟨n, hn⟩ := hdup
  have hmemdup : n ∈ dupNames cfg := (mem_dupNames cfg n).2 hn
  have hisE : (dupNames cfg).isEmpty = false := by
    cases h : dupNames cfg with
    | nil => rw [h] at hmemdup; cases hmemdup
    | cons a l => rfl
  have hchk : checkDuplicateNames cfg = [dupMessage cfg] := by
    simp [checkDuplicateNames, hisE]
  have herrs : (validate_config cfg).2.1 = dbErrorsOf cfg ++ [dupMessage cfg] := by
    simp [validate_config, hchk]
  refine ⟨herrs, rfl, ?_, ?_, by decide⟩
  · intro k
    rw [uniqueOf_count, if_congr (mem_dupNames cfg k) rfl rfl]
  · rw [herrs, List.countP_append]
    have h0 : (dbErrorsOf cfg).countP isDupMsg = 0 :=
      List.countP_eq_zero.2 (fun e he => by simp [dbErrorsOf_not_dup cfg e he])
    have h1 : isDupMsg (dupMessage cfg) = true := by
      apply decide_eq_true
      exact ⟨(String.intercalate ", " (uniqueOf (dupNames cfg))).data,
        (String.data_append _ _).symm⟩
    simp [h0, h1]

/-- Claim C5 witness: the two-db1 scenario has exactly one duplicate-name
error, and its full error list is that single message. -/
theorem c5_one_duplicate_error_witness :
    (validate_config cfg5).2.1.countP isDupMsg = 1 ∧
      (validate_config cfg5).2.1 = ["Duplicate service names found: db1"] :=
  ⟨(c5_one_duplicate_error cfg5 ⟨"db1", by decide⟩).2.2.2.1,
   (c5_one_duplicate_error cfg5 ⟨"db1", by decide⟩).2.2.2.2⟩

/-- Claim C2 counterexample: a flat entry whose password is the
resolution-failure sentinel MISSING_PASSWORD is not flagged by the
credential-validation stage: no error is recorded, the run reports
success, and a database connection is attempted for it — contradicting
the claim for sentinels beginning MISSING_. -/
theorem c2_counterexample :
    flatM.password = "MISSING_PASSWORD" ∧
      validate_credentials penv0 ocfg0 =
        { allValid := true, errors := [], warnings := [], attempts := [flatM] } :=
  ⟨rfl, by rfl⟩

/-- Claim C2 (amended): the credential-validation stage flags an entry as
a credential-resolution failure exactly on the code's test — the password
containing 'ERROR' as a substring, which covers the ERROR_* sentinels but
not the MISSING_* ones: for every such entry in either bucket an error
'name: Credential resolution failed' is recorded, the overall run reports
failure, and no database connection is attempted for that entry. -/
theorem c2_amended_error_substring_flagged (env : ProbeEnv) (cfg : OutputConfig)
    (db : FlatDb)
    (hmem : db ∈ cfg.mysql_databases.getD [] ∨ db ∈ cfg.postgresql_databases.getD [])
    (herr : hasErrTok db.password = true) :
    (nameOf db ++ ": Credential resolution failed") ∈ (validate_credentials env cfg).errors ∧
      (validate_credentials env cfg).allValid = false ∧
      db ∉ (validate_credentials env cfg).attempts := by
  have hmstep : vcMysqlStep env db =
      ⟨[nameOf db ++ ": Credential resolution failed"], [], false⟩ := by
    simp [vcMysqlStep, herr]
  have hpstep : vcPgStep env db =
      ⟨[nameOf db ++ ": Credential resolution failed"], [], [], false⟩ := by
    simp [vcPgStep, herr]
  refine ⟨?_, ?_, ?_⟩
  · simp only [validate_credentials, List.mem_append]
    rcases hmem with hdb | hdb
    · refine Or.inl (Or.inr (List.mem_flatten.2 ⟨_, List.mem_map.2
        ⟨vcMysqlStep env db, List.mem_map.2 ⟨db, hdb, rfl⟩, rfl⟩, ?_⟩))
      rw [hmstep]
      exact List.mem_singleton.2 rfl
    · refine Or.inr (List.mem_flatten.2 ⟨_, List.mem_map.2
        ⟨vcPgStep env db, List.mem_map.2 ⟨db, hdb, rfl⟩, rfl⟩, ?_⟩)
      rw [hpstep]
      exact List.mem_singleton.2 rfl
  · cases hval : (validate_credentials env cfg).allValid with
    | false => rfl
    | true =>
      exfalso
      simp only [validate_credentials, Bool.and_eq_true] at hval
      rcases hmem with hdb | hdb
      · have := List.all_eq_true.1 hval.1.2 (vcMysqlStep env db)
          (List.mem_map.2 ⟨db, hdb, rfl⟩)
        rw [hmstep] at this
        exact Bool.false_ne_true this
      · have := List.all_eq_true.1 hval.2 (vcPgStep env db)
          (List.mem_map.2 ⟨db, hdb, rfl⟩)
        rw [hpstep] at this
        exact Bool.false_ne_true this
  · intro hat
    simp only [validate_credentials, List.mem_append] at hat
    rcases hat with h | h
    · rcases List.mem_flatten.1 h with ⟨l, hl, hdbl⟩
      rcases List.mem_map.1 hl with ⟨st, hst, rfl⟩
      rcases List.mem_map.1 hst with ⟨d, hd, rfl⟩
      by_cases hdp : hasErrTok d.password = true
      · simp [vcMysqlStep, hdp] at hdbl
      · simp [vcMysqlStep, hdp] at hdbl
        subst hdbl
        rw [herr] at hdp
        exact hdp rfl
    · rcases List.mem_flatten.1 h with ⟨l, hl, hdbl⟩
      rcases List.mem_map.1 hl with ⟨st, hst, rfl⟩
      rcases List.mem_map.1 hst with ⟨d, hd, rfl⟩
      by_cases hdp : hasErrTok d.password = true
      · simp [vcPgStep, hdp] at hdbl
      · simp [vcPgStep, hdp] at hdbl
        subst hdbl
        rw [herr] at hdp
        exact hdp rfl

/-- Claim C2 witness: a concrete entry with password
ERROR_FETCHING_SECRET is flagged, fails the run, and gets no connection
attempt. -/
theorem c2_amended_error_substring_flagged_witness :
    ("db1: Credential resolution failed") ∈ (validate_credentials penv0 ocfgE).errors ∧
      (validate_credentials penv0 ocfgE).allValid = false ∧
      flatE ∉ (validate_credentials penv0 ocfgE).attempts :=
  ⟨(c2_amended_error_substring_flagged penv0 ocfgE flatE
      (Or.inl (List.mem_singleton.2 rfl)) (by decide)).1,
   (c2_amended_error_substring_flagged penv0 ocfgE flatE
      (Or.inl (List.mem_singleton.2 rfl)) (by decide)).2.1,
   (c2_amended_error_substring_flagged penv0 ocfgE flatE
      (Or.inl (List.mem_singleton.2 rfl)) (by decide)).2.2⟩

end AwsMon
